import Mathlib

/-!
Verification of the static layout-resolution engine and the live
modifier-tracking state machine of the `bodegafresh-latam-keymap-lily58`
repository (files `kbmap_qmk_helper.py`, `keymap_programming_keys.py`,
`keyboard_combo_inspector.py`), as a shallow embedding in Lean:
Python dictionaries become association lists, Python functions become
Lean functions, and the per-backend modifier dictionaries become record
types threaded through explicit step functions.
-/

/-! ## Python string semantics helpers

Python strings are modelled as Lean `String`; `len` is `String.length`
(code points), `s.startswith(p)` is prefix testing on the code-point
lists, and the `str.isalpha` / `str.isdigit` / `str.upper` / `str.lower`
predicates are modelled on the character repertoire this program works
with (ASCII plus the Spanish letters and punctuation the tables use:
of the non-ASCII characters appearing in the sources, only `ñ`/`Ñ`
are alphabetic in Python, and `´ ° ¬ ¿ ¡ —` are not). -/

def pyStartsWith (s p : String) : Bool := p.data.isPrefixOf s.data

def pyIsAlphaChar (c : Char) : Bool := c.isAlpha || c == 'ñ' || c == 'Ñ'

def pyIsAlphaStr (s : String) : Bool := !s.data.isEmpty && s.data.all pyIsAlphaChar

def pyIsDigitStr (s : String) : Bool := !s.data.isEmpty && s.data.all Char.isDigit

def pyIsAlnumStr (s : String) : Bool :=
  !s.data.isEmpty && s.data.all (fun c => pyIsAlphaChar c || c.isDigit)

def pyUpperChar (c : Char) : Char := if c = 'ñ' then 'Ñ' else c.toUpper

def pyUpperStr (s : String) : String := String.mk (s.data.map pyUpperChar)

def pyLowerChar (c : Char) : Char := if c = 'Ñ' then 'ñ' else c.toLower

def pyLowerStr (s : String) : String := String.mk (s.data.map pyLowerChar)

/-- Python `s[:-1]`. -/
def pyDropLast (s : String) : String := String.mk s.data.dropLast

/-! ## Shared data model

An `Occ` is one occurrence of a character in the reverse index:
`(keycode, level, keysym, full 4-level row)`, exactly the tuples the two
static-resolution scripts append in `build_positions` /
`find_char_positions`. -/

structure Occ where
  code : Nat
  lvl : Nat
  sym : String
  row : List String
deriving DecidableEq

/-- Stable sort of occurrences by level, modelling the stable Python
`found.sort(key=lambda t: t[1])` / `sorted(found, key=lambda t: t[1])`:
an element is inserted before the first element of strictly-or-equally
larger level, so elements of equal level keep their original order. -/
def insertLvl (x : Occ) : List Occ → List Occ
  | [] => [x]
  | y :: ys => if x.lvl ≤ y.lvl then x :: y :: ys else y :: insertLvl x ys

def sortByLvl : List Occ → List Occ
  | [] => []
  | x :: xs => insertLvl x (sortByLvl xs)

namespace Kbmap

/-! ## `kbmap_qmk_helper.py` -/

/-- Constant `DEAD_PREFIX = "dead_"` (its Python name is shortened here). -/
def DEAD_PFX : String := "dead_"

/-- Table `KEYSYM_TO_CHAR` of `kbmap_qmk_helper.py` (lines 41-63), in source
order, including the three trailing `dead_*` entries. -/
def KEYSYM_TO_CHAR : List (String × String) :=
  [ ("parenleft", "("), ("parenright", ")"),
    ("bracketleft", "["), ("bracketright", "]"),
    ("braceleft", "\x7b"), ("braceright", "\x7d"),
    ("less", "<"), ("greater", ">"),
    ("slash", "/"), ("backslash", "\\"), ("bar", "|"),
    ("asciitilde", "~"), ("asciicircum", "^"), ("grave", "`"),
    ("at", "@"), ("numbersign", "#"), ("dollar", "$"),
    ("percent", "%"), ("ampersand", "&"), ("asterisk", "*"),
    ("minus", "-"), ("underscore", "_"),
    ("equal", "="), ("plus", "+"),
    ("semicolon", ";"), ("colon", ":"),
    ("quotedbl", "\""), ("apostrophe", String.singleton (Char.ofNat 39)),
    ("comma", ","), ("period", "."),
    ("question", "?"), ("exclam", "!"),
    ("exclamdown", "¡"), ("questiondown", "¿"),
    ("degree", "°"), ("notsign", "¬"),
    ("space", " "),
    ("ntilde", "ñ"), ("Ntilde", "Ñ"),
    ("dead_grave", "`"),
    ("dead_acute", "´"),
    ("dead_tilde", "~") ]

/-- Table `BASE_KEYSYM_TO_QMK` of `kbmap_qmk_helper.py` (lines 67-86): the two
comprehensions for letters and digits followed by the literal symbol
entries. -/
def BASE_KEYSYM_TO_QMK : List (String × String) :=
  ("abcdefghijklmnopqrstuvwxyz".data.map
    (fun c => (String.singleton c, "KC_" ++ String.singleton c.toUpper)))
  ++ [("ntilde", "KC_SCLN")]
  ++ ((List.range 10).map (fun d => (toString d, "KC_" ++ toString d)))
  ++ [ ("minus", "KC_MINS"), ("equal", "KC_EQL"),
       ("bracketleft", "KC_LBRC"), ("bracketright", "KC_RBRC"),
       ("backslash", "KC_BSLS"), ("slash", "KC_SLSH"),
       ("semicolon", "KC_SCLN"), ("apostrophe", "KC_QUOT"),
       ("comma", "KC_COMM"), ("period", "KC_DOT"),
       ("grave", "KC_GRV"), ("space", "KC_SPC") ]

/-- Function `keysym_to_char` of `kbmap_qmk_helper.py` (lines 88-96).  Note the
`dead_` test comes first, before the table lookup. -/
def keysym_to_char (sym : String) : Option String :=
  if pyStartsWith sym DEAD_PFX then some sym
  else match List.lookup sym KEYSYM_TO_CHAR with
    | some c => some c
    | none => if sym.length = 1 then some sym else none

/-- The token normalisation inside `parse_xmodmap_pke` (lines 107-110):
pad with `"NoSymbol"` up to 4 entries, then truncate to 4. -/
def normalize_syms (toks : List String) : List String :=
  (toks ++ List.replicate (4 - toks.length) "NoSymbol").take 4

/-- Function `parse_xmodmap_pke` (lines 98-111).  The regex split of each raw
text line into a keycode and its whitespace-separated symbol tokens is
modelled as the input: a line that does not match the pattern is `none`
and is skipped. -/
def parse_xmodmap_pke (lines : List (Option (Nat × List String))) :
    List (Nat × List String) :=
  lines.filterMap (fun l => l.map (fun p => (p.1, normalize_syms p.2)))

/-- Function `level_to_combo` (lines 113-114). -/
def level_to_combo (lvl : Nat) : String :=
  if lvl = 0 then "" else if lvl = 1 then "Shift+"
  else if lvl = 2 then "AltGr+" else if lvl = 3 then "Shift+AltGr+" else ""

/-- Function `prefer_key_label` (lines 116-122): scan levels 0..3, return the
first resolved character that is truthy and not `dead_`-prefixed,
else `keysym_to_char(level_syms[0]) or level_syms[0]`. -/
def prefer_key_label (row : List String) : String :=
  match [0, 1, 2, 3].findSome? (fun i =>
    match keysym_to_char (row.getD i "NoSymbol") with
    | some ch => if ch ≠ "" ∧ ¬ pyStartsWith ch DEAD_PFX then some ch else none
    | none => none) with
  | some ch => ch
  | none =>
    match keysym_to_char (row.getD 0 "NoSymbol") with
    | some c => if c ≠ "" then c else row.getD 0 "NoSymbol"
    | none => row.getD 0 "NoSymbol"

/-- One level of the inner loop of `build_positions` (lines 124-134):
for the occurrence of character `c`, keep `(code, lvl, sym, syms)` when
the symbol is not the sentinel, resolves, and is not dead. -/
def row_occs (code : Nat) (syms : List String) (c : String) : List Occ :=
  syms.enum.filterMap (fun p =>
    if p.2 = "NoSymbol" then none
    else match keysym_to_char p.2 with
      | none => none
      | some ch =>
        if ch = "" ∨ pyStartsWith ch DEAD_PFX then none
        else if ch = c then some ⟨code, p.1, p.2, syms⟩ else none)

/-- Function `build_positions` (lines 124-134), read back at one character `c`:
the list bound to `pos[c]`, in discovery order. -/
def build_positions (keymap : List (Nat × List String)) (c : String) : List Occ :=
  keymap.foldr (fun kv acc => row_occs kv.1 kv.2 c ++ acc) []

/-- Selection `found.sort(key=lambda t: t[1]); found[0]` of `main` (lines 216-217). -/
def resolve_occ (keymap : List (Nat × List String)) (c : String) : Option Occ :=
  (sortByLvl (build_positions keymap c)).head?

/-- The `base_keysym` local of `qmk_combo_for` (line 141):
`level_syms[0] if level_syms[0] != "NoSymbol" else sym`. -/
def base_keysym_of (e : Occ) : String :=
  let ls0 := e.row.getD 0 "NoSymbol"
  if ls0 = "NoSymbol" then e.sym else ls0

/-- The base-keycode hypothesis computed by `qmk_combo_for`
(lines 141-163): letter/digit direct rule, then `BASE_KEYSYM_TO_QMK`,
then the `prefer_key_label` heuristic, then the explicit unknown-base
marker carrying the symbol. -/
def qmk_base_of (e : Occ) : String :=
  let b := base_keysym_of e
  let q1 : Option String :=
    if b.length = 1 ∧ pyIsAlphaStr b then some ("KC_" ++ pyUpperStr b)
    else if b.length = 1 ∧ pyIsDigitStr b then some ("KC_" ++ b)
    else List.lookup b BASE_KEYSYM_TO_QMK
  match q1 with
  | some q => q
  | none =>
    let key_label := prefer_key_label e.row
    if key_label.length = 1 ∧ pyIsAlphaStr key_label then "KC_" ++ pyUpperStr key_label
    else if key_label.length = 1 ∧ pyIsDigitStr key_label then "KC_" ++ key_label
    else "<KC_BASE_DESCONOCIDA:keysym=" ++ b ++ ">"

/-- Function `qmk_combo_for` (lines 136-175): human combo, keysym, and the final
QMK expression (the base hypothesis wrapped according to the level). -/
def qmk_combo_for (e : Occ) : String × String × String :=
  let qmk_base := qmk_base_of e
  let qmk :=
    if e.lvl = 0 then qmk_base
    else if e.lvl = 1 then "S(" ++ qmk_base ++ ")"
    else if e.lvl = 2 then "RALT(" ++ qmk_base ++ ")"
    else "S(RALT(" ++ qmk_base ++ "))"
  (level_to_combo e.lvl, e.sym, qmk)

/-- Inverse of the unknown-base marker: strip the fixed marker head and
the closing `>`, recovering the keysym embedded in the marker. -/
def extract_marker_sym (m : String) : String :=
  String.mk ((m.data.drop "<KC_BASE_DESCONOCIDA:keysym=".length).dropLast)

end Kbmap

namespace ProgKeys

/-! ## `keymap_programming_keys.py` -/

/-- Constant `DEAD_PREFIX = "dead_"` (its Python name is shortened here). -/
def DEAD_PFX : String := "dead_"

/-- Table `KEYSYM_TO_CHAR` of `keymap_programming_keys.py` (lines 35-58), in
source order (no `dead_*` entries; `space` comes after `Ntilde`). -/
def KEYSYM_TO_CHAR : List (String × String) :=
  [ ("parenleft", "("), ("parenright", ")"),
    ("bracketleft", "["), ("bracketright", "]"),
    ("braceleft", "\x7b"), ("braceright", "\x7d"),
    ("less", "<"), ("greater", ">"),
    ("slash", "/"), ("backslash", "\\"),
    ("bar", "|"), ("asciitilde", "~"),
    ("asciicircum", "^"), ("grave", "`"),
    ("at", "@"), ("numbersign", "#"), ("dollar", "$"),
    ("percent", "%"), ("ampersand", "&"), ("asterisk", "*"),
    ("minus", "-"), ("underscore", "_"),
    ("equal", "="), ("plus", "+"),
    ("semicolon", ";"), ("colon", ":"),
    ("quotedbl", "\""), ("apostrophe", String.singleton (Char.ofNat 39)),
    ("comma", ","), ("period", "."),
    ("question", "?"), ("exclam", "!"),
    ("exclamdown", "¡"), ("questiondown", "¿"),
    ("degree", "°"), ("notsign", "¬"),
    ("ntilde", "ñ"), ("Ntilde", "Ñ"),
    ("space", " ") ]

/-- Function `keysym_to_char` of `keymap_programming_keys.py` (lines 123-138),
including its two unreachable trailing single-rune branches. -/
def keysym_to_char (sym : String) : Option String :=
  if pyStartsWith sym DEAD_PFX then some sym
  else match List.lookup sym KEYSYM_TO_CHAR with
    | some c => some c
    | none =>
      if sym.length = 1 then some sym
      else if sym.length = 1 ∧ pyIsAlphaStr sym then some sym
      else if sym.length = 1 then some sym
      else none

/-- Token normalisation inside `parse_pke` (lines 116-120). -/
def normalize_syms (toks : List String) : List String :=
  (toks ++ List.replicate (4 - toks.length) "NoSymbol").take 4

/-- Function `parse_pke` (lines 99-121); as for `Kbmap.parse_xmodmap_pke`, the
regex split of a raw line is modelled as the input and non-matching
lines are `none`. -/
def parse_pke (lines : List (Option (Nat × List String))) :
    List (Nat × List String) :=
  lines.filterMap (fun l => l.map (fun p => (p.1, normalize_syms p.2)))

/-- The character set of the raw string in `prefer_key_label`
(line 155), duplicates as written. -/
def LABEL_CHARSET : List Char :=
  [ '-', '_', '=', '+', '[', ']', Char.ofNat 123, Char.ofNat 125,
    '(', ')', '<', '>', '/', '\\', '\\', '|', ';', ':',
    Char.ofNat 39, '\\', '"', ',', '.', '#', '!', '?', '@', '^', '~',
    Char.ofNat 96, '%', '$', '&', '*', '°', '¬', '¿', '¡', ' ' ]

/-- Function `prefer_key_label` of `keymap_programming_keys.py` (lines 144-158):
as in the other script, but the character of a level is only returned when
it is a single alphanumeric or listed punctuation character; the Python
`ch in r"..."` on a length-1 `ch` is character membership. -/
def prefer_key_label (row : List String) : String :=
  match [0, 1, 2, 3].findSome? (fun i =>
    match keysym_to_char (row.getD i "NoSymbol") with
    | some ch =>
      if ch ≠ "" ∧ ¬ pyStartsWith ch DEAD_PFX then
        if ch.length = 1 ∧ (pyIsAlnumStr ch ∨ ch.data.all (· ∈ LABEL_CHARSET))
        then some ch else none
      else none
    | none => none) with
  | some ch => ch
  | none =>
    match keysym_to_char (row.getD 0 "NoSymbol") with
    | some c => if c ≠ "" then c else row.getD 0 "NoSymbol"
    | none => row.getD 0 "NoSymbol"

/-- Inner loop of `find_char_positions` (lines 160-177) at character
`c`: skip the sentinel, unresolved symbols, and dead symbols. -/
def row_occs (code : Nat) (syms : List String) (c : String) : List Occ :=
  syms.enum.filterMap (fun p =>
    if p.2 = "NoSymbol" then none
    else match keysym_to_char p.2 with
      | none => none
      | some ch =>
        if ch = "" ∨ pyStartsWith ch DEAD_PFX then none
        else if ch = c then some ⟨code, p.1, p.2, syms⟩ else none)

/-- Function `find_char_positions` (lines 160-177), read back at one character. -/
def find_char_positions (keymap : List (Nat × List String)) (c : String) :
    List Occ :=
  keymap.foldr (fun kv acc => row_occs kv.1 kv.2 c ++ acc) []

/-- Function `lvl_to_combo` (lines 179-185). -/
def lvl_to_combo (lvl : Nat) : String :=
  if lvl = 0 then "" else if lvl = 1 then "Shift+"
  else if lvl = 2 then "AltGr+" else if lvl = 3 then "Shift+AltGr+" else ""

/-- The body of the per-character loop of `main` (lines 245-258): the
rows (possibly none) contributed by one wanted character.  A character
with no occurrence yields the placeholder row under `--all`
(`show_missing = true`) and nothing otherwise; a found character yields
its resolved row from the minimum-level occurrence. -/
def row_for_want (keymap : List (Nat × List String)) (show_missing : Bool)
    (want : String) : List (List String) :=
  let found := find_char_positions keymap want
  if found = [] then
    if show_missing then [[want, "—", "—", "—", "No hallado en este layout"]]
    else []
  else
    match sortByLvl found with
    | [] => []
    | o :: _ =>
      let combo := lvl_to_combo o.lvl
      let key_label := prefer_key_label o.row
      let ejemplo := combo ++ "Tecla(" ++ key_label ++ ")"
      [[want, key_label, if combo = "" then "—" else pyDropLast combo,
        o.sym, ejemplo]]

/-- The whole batch loop of `main` over a wanted-character list. -/
def batch_rows (keymap : List (Nat × List String)) (show_missing : Bool)
    (wanted : List String) : List (List String) :=
  wanted.foldr (fun w acc => row_for_want keymap show_missing w ++ acc) []

end ProgKeys

namespace Inspector

/-! ## `keyboard_combo_inspector.py` -/

/-- Table `BASE_KEYSYM_TO_QMK` of `keyboard_combo_inspector.py` (lines 32-45):
lowercase letters, uppercase letters, digits, then the literal symbol
entries, keyed by display character. -/
def BASE_KEYSYM_TO_QMK : List (String × String) :=
  ((List.range 26).map (fun i =>
    (String.singleton (Char.ofNat (97 + i)),
     "KC_" ++ String.singleton (Char.ofNat (65 + i)))))
  ++ ((List.range 26).map (fun i =>
    (String.singleton (Char.ofNat (65 + i)),
     "KC_" ++ String.singleton (Char.ofNat (65 + i)))))
  ++ ((List.range 10).map (fun d => (toString d, "KC_" ++ toString d)))
  ++ [ ("-", "KC_MINS"), ("=", "KC_EQL"),
       ("[", "KC_LBRC"), ("]", "KC_RBRC"),
       ("\\", "KC_BSLS"),
       (";", "KC_SCLN"), (String.singleton (Char.ofNat 39), "KC_QUOT"),
       (",", "KC_COMM"), (".", "KC_DOT"), ("/", "KC_SLSH"),
       ("`", "KC_GRV"), (" ", "KC_SPC") ]

/-- Table `EXTRA_CHAR_TO_QMK` (lines 48-51). -/
def EXTRA_CHAR_TO_QMK : List (String × String) :=
  [ ("ñ", "KC_SCLN"), ("Ñ", "S(KC_SCLN)"),
    ("¡", "S(KC_1)"), ("¿", "RALT(KC_SLASH)") ]

/-- The `kc` computation of `qmk_from_char_and_mods` (lines 58-66):
direct char lookup, then the extra table, then the
uppercase-to-lowercase letter fallback; `none` when every stage fails.
A Python-falsy `base_char` (absent or empty) skips every lookup. -/
def resolve_kc (base_char : Option String) : Option String :=
  match base_char with
  | none => none
  | some c =>
    if c = "" then none
    else
      match List.lookup c BASE_KEYSYM_TO_QMK with
      | some k => some k
      | none =>
        match List.lookup c EXTRA_CHAR_TO_QMK with
        | some k => some k
        | none =>
          if c.length = 1 ∧ pyIsAlphaStr c then
            List.lookup (pyLowerStr c) BASE_KEYSYM_TO_QMK
          else none

/-- Function `qmk_from_char_and_mods` (lines 53-77): resolve the base keycode or
fall back to the generic unknown-base marker, then wrap according to the
Shift/AltGr flags. -/
def qmk_from_char_and_mods (base_char : Option String) (shift ralt : Bool) :
    String :=
  let kc := (resolve_kc base_char).getD "<KC_BASE_DESCONOCIDA>"
  if shift && ralt then "S(RALT(" ++ kc ++ "))"
  else if ralt then "RALT(" ++ kc ++ ")"
  else if shift then "S(" ++ kc ++ ")"
  else kc

/-- Record `KeyEventInfo` (lines 80-102); `su` models the Python field named
after the Super modifier. -/
structure KeyEventInfo where
  source : String
  key : String
  char : String
  ctrl : Bool
  shift : Bool
  alt_l : Bool
  alt_r : Bool
  meta : Bool
  su : Bool
  comment : String
deriving DecidableEq

/-- Property `altgr` (lines 93-96). -/
def KeyEventInfo.altgr (i : KeyEventInfo) : Bool := i.alt_r

/-- Property `qmk_suggestion` (lines 98-102):
`base_char = self.char if self.char else None`. -/
def KeyEventInfo.qmk_suggestion (i : KeyEventInfo) : String :=
  qmk_from_char_and_mods (if i.char = "" then none else some i.char)
    i.shift i.altgr

/-- The `self.tk_mods` dictionary of backend A (line 135). -/
structure TkMods where
  shift : Bool
  control : Bool
  alt_l : Bool
  alt_r : Bool
  meta : Bool
  su : Bool
deriving DecidableEq

/-- Initial backend-A state (line 135: every flag `False`). -/
def tkMods0 : TkMods := ⟨false, false, false, false, false, false⟩

/-- The keysyms `on_keypress_tk` / `on_keyrelease_tk` recognise as
modifier keys. -/
def tkModNames : List String :=
  [ "Shift_L", "Shift_R", "Control_L", "Control_R", "Alt_L",
    "Alt_R", "ISO_Level3_Shift", "Mode_switch",
    "Meta_L", "Meta_R", "Super_L", "Super_R" ]

/-- Handler `App.on_keypress_tk` (lines 202-242): update the rolling modifier
flags from the pressed keysym, then build the `KeyEventInfo` from the
updated flags and the character of the event (already `""` when the Python
`event.char` is falsy).  The `comment` carries the keysym as in the
source (the Tk-supplied numeric keycode of the f-string is
environment data and is omitted). -/
def on_keypress_tk (m : TkMods) (ks ch : String) : TkMods × KeyEventInfo :=
  let m' :=
    if ks = "Shift_L" ∨ ks = "Shift_R" then { m with shift := true }
    else if ks = "Control_L" ∨ ks = "Control_R" then m
    else if ks = "Alt_L" then { m with alt_l := true }
    else if ks = "Alt_R" ∨ ks = "ISO_Level3_Shift" ∨ ks = "Mode_switch" then
      { m with alt_r := true }
    else if ks = "Meta_L" ∨ ks = "Meta_R" then { m with meta := true }
    else if ks = "Super_L" ∨ ks = "Super_R" then { m with su := true }
    else m
  (m', { source := "XKB", key := ks, char := ch, ctrl := false,
         shift := m'.shift, alt_l := m'.alt_l, alt_r := m'.alt_r,
         meta := m'.meta, su := m'.su,
         comment := "Tk keysym=" ++ ks })

/-- Handler `App.on_keyrelease_tk` (lines 244-255). -/
def on_keyrelease_tk (m : TkMods) (ks : String) : TkMods :=
  if ks = "Shift_L" ∨ ks = "Shift_R" then { m with shift := false }
  else if ks = "Alt_L" then { m with alt_l := false }
  else if ks = "Alt_R" ∨ ks = "ISO_Level3_Shift" ∨ ks = "Mode_switch" then
    { m with alt_r := false }
  else if ks = "Meta_L" ∨ ks = "Meta_R" then { m with meta := false }
  else if ks = "Super_L" ∨ ks = "Super_R" then { m with su := false }
  else m

/-- The `self.ev_mods` dictionary of backend B (line 331). -/
structure EvMods where
  shift : Bool
  ctrl : Bool
  alt_l : Bool
  alt_r : Bool
  meta : Bool
  su : Bool
deriving DecidableEq

/-- Initial backend-B state (line 331: every flag `False`). -/
def evMods0 : EvMods := ⟨false, false, false, false, false, false⟩

/-- The evdev key names `_evdev_loop` recognises as modifier keys. -/
def evModNames : List String :=
  [ "KEY_LEFTSHIFT", "KEY_RIGHTSHIFT", "KEY_LEFTALT", "KEY_RIGHTALT",
    "KEY_LEFTCTRL", "KEY_RIGHTCTRL", "KEY_LEFTMETA", "KEY_RIGHTMETA" ]

/-- evdev key event states (`key_up = 0`, `key_down = 1`, `key_hold = 2`). -/
inductive EvKeyState where
  | up
  | down
  | hold
deriving DecidableEq

/-- One `EV_KEY` iteration of `App._evdev_loop` (lines 389-425):
update the rolling flags from the scancode name, then emit a
`KeyEventInfo` only when this is a key-down whose name does not start
with `KEY_LEFT` or `KEY_RIGHT`; the character is always empty in this
backend. -/
def evdev_step (m : EvMods) (scancode : Nat) (keyname : String)
    (ks : EvKeyState) : EvMods × Option KeyEventInfo :=
  let pressed : Bool := ks = EvKeyState.down
  let released : Bool := ks = EvKeyState.up
  let m' :=
    if keyname = "KEY_LEFTSHIFT" ∨ keyname = "KEY_RIGHTSHIFT" then
      { m with shift := pressed || (!released && m.shift) }
    else if keyname = "KEY_LEFTALT" then
      { m with alt_l := pressed || (!released && m.alt_l) }
    else if keyname = "KEY_RIGHTALT" then
      { m with alt_r := pressed || (!released && m.alt_r) }
    else if keyname = "KEY_LEFTCTRL" ∨ keyname = "KEY_RIGHTCTRL" then
      { m with ctrl := pressed || (!released && m.ctrl) }
    else if keyname = "KEY_LEFTMETA" ∨ keyname = "KEY_RIGHTMETA" then
      { m with su := pressed || (!released && m.su) }
    else m
  let emitted :=
    if pressed &&
        !(pyStartsWith keyname "KEY_LEFT" || pyStartsWith keyname "KEY_RIGHT")
    then
      some { source := "evdev", key := keyname, char := "",
             ctrl := m'.ctrl, shift := m'.shift, alt_l := m'.alt_l,
             alt_r := m'.alt_r, meta := false, su := m'.su,
             comment := "scancode=" ++ toString scancode }
    else none
  (m', emitted)

end Inspector

theorem lookup_append' (k : String) (l₁ l₂ : List (String × String)) :
    List.lookup k (l₁ ++ l₂) =
      ((List.lookup k l₁).orElse fun _ => List.lookup k l₂) := by
  induction l₁ with
  | nil => simp [List.lookup]
  | cons p t ih =>
    obtain ⟨a, b⟩ := p
    simp only [List.cons_append, List.lookup]
    cases h : (k == a) <;> simp [h, ih]

theorem lookup_congr_tail (t₁ t₂ : List (String × String)) (sym : String)
    (ht : List.lookup sym t₁ = List.lookup sym t₂) (C : List (String × String)) :
    List.lookup sym (C ++ t₁) = List.lookup sym (C ++ t₂) := by
  rw [lookup_append', lookup_append', ht]

theorem keysym_tables_agree (sym : String)
    (h : pyStartsWith sym "dead_" = false) :
    List.lookup sym Kbmap.KEYSYM_TO_CHAR = List.lookup sym ProgKeys.KEYSYM_TO_CHAR := by
  by_cases hs : sym = "space"
  · subst hs; decide
  by_cases hn : sym = "ntilde"
  · subst hn; decide
  by_cases hN : sym = "Ntilde"
  · subst hN; decide
  have hd1 : sym ≠ "dead_grave" := by rintro rfl; exact absurd h (by decide)
  have hd2 : sym ≠ "dead_acute" := by rintro rfl; exact absurd h (by decide)
  have hd3 : sym ≠ "dead_tilde" := by rintro rfl; exact absurd h (by decide)
  have ht : List.lookup sym
      [("space", " "), ("ntilde", "ñ"), ("Ntilde", "Ñ"),
       ("dead_grave", "`"), ("dead_acute", "´"), ("dead_tilde", "~")] =
      List.lookup sym [("ntilde", "ñ"), ("Ntilde", "Ñ"), ("space", " ")] := by
    have b1 : (sym == "space") = false := beq_eq_false_iff_ne.mpr hs
    have b2 : (sym == "ntilde") = false := beq_eq_false_iff_ne.mpr hn
    have b3 : (sym == "Ntilde") = false := beq_eq_false_iff_ne.mpr hN
    have b4 : (sym == "dead_grave") = false := beq_eq_false_iff_ne.mpr hd1
    have b5 : (sym == "dead_acute") = false := beq_eq_false_iff_ne.mpr hd2
    have b6 : (sym == "dead_tilde") = false := beq_eq_false_iff_ne.mpr hd3
    simp [List.lookup, b1, b2, b3, b4, b5, b6]
  exact lookup_congr_tail _ _ sym ht
    [ ("parenleft", "("), ("parenright", ")"),
      ("bracketleft", "["), ("bracketright", "]"),
      ("braceleft", "\x7b"), ("braceright", "\x7d"),
      ("less", "<"), ("greater", ">"),
      ("slash", "/"), ("backslash", "\\"), ("bar", "|"),
      ("asciitilde", "~"), ("asciicircum", "^"), ("grave", "`"),
      ("at", "@"), ("numbersign", "#"), ("dollar", "$"),
      ("percent", "%"), ("ampersand", "&"), ("asterisk", "*"),
      ("minus", "-"), ("underscore", "_"),
      ("equal", "="), ("plus", "+"),
      ("semicolon", ";"), ("colon", ":"),
      ("quotedbl", "\""), ("apostrophe", String.singleton (Char.ofNat 39)),
      ("comma", ","), ("period", "."),
      ("question", "?"), ("exclam", "!"),
      ("exclamdown", "¡"), ("questiondown", "¿"),
      ("degree", "°"), ("notsign", "¬") ]

/-- Claim C10: the symbol-to-character resolvers of the two static
resolution files are extensionally equal. -/
theorem c10_keysym_to_char_equiv :
    ∀ sym : String, Kbmap.keysym_to_char sym = ProgKeys.keysym_to_char sym := by
  intro sym
  unfold Kbmap.keysym_to_char ProgKeys.keysym_to_char
  cases hd : pyStartsWith sym "dead_" with
  | true => simp [Kbmap.DEAD_PFX, ProgKeys.DEAD_PFX, hd]
  | false =>
    rw [show Kbmap.DEAD_PFX = "dead_" from rfl, show ProgKeys.DEAD_PFX = "dead_" from rfl, hd]
    simp only [Bool.false_eq_true, if_false]
    rw [keysym_tables_agree sym hd]
    cases List.lookup sym ProgKeys.KEYSYM_TO_CHAR with
    | some c => rfl
    | none =>
      by_cases hl : sym.length = 1 <;> simp [hl]

/-- Claim C1 (code bug, claim states the intent): `KEYSYM_TO_CHAR` does hold the
override entries mapping `dead_grave`/`dead_acute`/`dead_tilde` to their
bare characters, but `keysym_to_char` returns any `dead_`-prefixed
symbol unchanged *before* consulting the table, so the override entries
are unreachable and `build_positions` indexes no occurrence of the bare
character for a keymap carrying the dead symbol at some level. -/
theorem c1_dead_override_shadowed :
    (List.lookup "dead_grave" Kbmap.KEYSYM_TO_CHAR = some "`" ∧
     List.lookup "dead_acute" Kbmap.KEYSYM_TO_CHAR = some "´" ∧
     List.lookup "dead_tilde" Kbmap.KEYSYM_TO_CHAR = some "~") ∧
    (Kbmap.keysym_to_char "dead_grave" = some "dead_grave" ∧
     Kbmap.keysym_to_char "dead_acute" = some "dead_acute" ∧
     Kbmap.keysym_to_char "dead_tilde" = some "dead_tilde") ∧
    Kbmap.build_positions
      [(49, ["dead_grave", "NoSymbol", "NoSymbol", "NoSymbol"])] "`" = [] ∧
    Kbmap.build_positions
      [(13, ["apostrophe", "quotedbl", "dead_acute", "NoSymbol"])] "´" = [] ∧
    Kbmap.build_positions
      [(48, ["dead_tilde", "NoSymbol", "NoSymbol", "NoSymbol"])] "~" = [] := by
  decide

/-- Claim C2 (code bug, claim states the intent): the evdev backend suppresses the
event for any key-down whose name starts with `KEY_LEFT` or
`KEY_RIGHT`, which silences the non-modifier keys `KEY_LEFTBRACE`
(the `[` key, scancode 26), `KEY_RIGHTBRACE`, `KEY_LEFT` and
`KEY_RIGHT`; an ordinary key such as `KEY_A` does get a `KeyEventInfo`
with the current flag snapshot and an empty character field. -/
theorem c2_leftbrace_not_emitted :
    (Inspector.evdev_step Inspector.evMods0 26 "KEY_LEFTBRACE"
        Inspector.EvKeyState.down).2 = none ∧
    (Inspector.evdev_step Inspector.evMods0 26 "KEY_LEFTBRACE"
        Inspector.EvKeyState.down).1 = Inspector.evMods0 ∧
    (Inspector.evdev_step Inspector.evMods0 105 "KEY_LEFT"
        Inspector.EvKeyState.down).2 = none ∧
    (Inspector.evdev_step Inspector.evMods0 30 "KEY_A"
        Inspector.EvKeyState.down).2 =
      some { source := "evdev", key := "KEY_A", char := "", ctrl := false,
             shift := false, alt_l := false, alt_r := false, meta := false,
             su := false, comment := "scancode=30" } := by
  decide

theorem kbmap_normalize_syms_length (toks : List String) :
    (Kbmap.normalize_syms toks).length = 4 := by
  simp [Kbmap.normalize_syms, List.length_take, List.length_append,
    List.length_replicate]
  omega

theorem progkeys_normalize_syms_length (toks : List String) :
    (ProgKeys.normalize_syms toks).length = 4 := by
  simp [ProgKeys.normalize_syms, List.length_take, List.length_append,
    List.length_replicate]
  omega

/-- Claim C6: whatever the token count of a raw-mapping line (shorter
than 4, exactly 4 or longer than 4), every row stored by either parser
has exactly 4 entries, the missing slots padded with `"NoSymbol"`. -/
theorem c6_row_padding (lines : List (Option (Nat × List String))) :
    (∀ e ∈ Kbmap.parse_xmodmap_pke lines, e.2.length = 4) ∧
    (∀ e ∈ ProgKeys.parse_pke lines, e.2.length = 4) := by
  constructor
  · intro e he
    simp only [Kbmap.parse_xmodmap_pke, List.mem_filterMap] at he
    obtain ⟨l, _, hl⟩ := he
    cases l with
    | none => simp [Option.map] at hl
    | some p =>
      simp only [Option.map] at hl
      cases hl
      exact kbmap_normalize_syms_length p.2
  · intro e he
    simp only [ProgKeys.parse_pke, List.mem_filterMap] at he
    obtain ⟨l, _, hl⟩ := he
    cases l with
    | none => simp [Option.map] at hl
    | some p =>
      simp only [Option.map] at hl
      cases hl
      exact progkeys_normalize_syms_length p.2

/-- Claim C6, witnessed on concrete raw lines with 1, 4, 6 and 0
tokens plus a non-matching line. -/
theorem c6_row_padding_witness :
    ((10, ["a", "NoSymbol", "NoSymbol", "NoSymbol"]) : Nat × List String).2.length = 4 ∧
    ((11, ["q", "w", "e", "r"]) : Nat × List String).2.length = 4 := by
  refine ⟨?_, ?_⟩
  · exact (c6_row_padding
      [some (10, ["a"]), some (11, ["q", "w", "e", "r", "t", "y"]), none,
       some (12, [])]).1
      (10, ["a", "NoSymbol", "NoSymbol", "NoSymbol"]) (by decide)
  · exact (c6_row_padding
      [some (11, ["q", "w", "e", "r"]), none]).2
      (11, ["q", "w", "e", "r"]) (by decide)

theorem sortByLvl_head_spec (l : List Occ) (h : l ≠ []) :
    ∃ o, (sortByLvl l).head? = some o ∧ (∀ x ∈ l, o.lvl ≤ x.lvl) ∧
      l.find? (fun x => decide (x.lvl ≤ o.lvl)) = some o := by
  induction l with
  | nil => exact absurd rfl h
  | cons a t ih =>
    cases t with
    | nil =>
      refine ⟨a, rfl, ?_, ?_⟩
      · intro x hx
        simp only [List.mem_singleton] at hx
        subst hx; exact Nat.le_refl _
      · simp [List.find?]
    | cons b t' =>
      obtain ⟨o, ho1, ho2, ho3⟩ := ih (by simp)
      obtain ⟨rest, hrest⟩ : ∃ rest, sortByLvl (b :: t') = o :: rest := by
        cases hs : sortByLvl (b :: t') with
        | nil => rw [hs] at ho1; simp at ho1
        | cons x xs =>
          rw [hs] at ho1
          simp only [List.head?_cons, Option.some.injEq] at ho1
          exact ⟨xs, by rw [ho1]⟩
      by_cases hle : a.lvl ≤ o.lvl
      · refine ⟨a, ?_, ?_, ?_⟩
        · show (insertLvl a (sortByLvl (b :: t'))).head? = some a
          rw [hrest]
          simp [insertLvl, hle]
        · intro x hx
          rcases List.mem_cons.mp hx with rfl | hx'
          · exact Nat.le_refl _
          · exact Nat.le_trans hle (ho2 x hx')
        · exact List.find?_cons_of_pos _ (by simp)
      · have hlt : o.lvl < a.lvl := Nat.lt_of_not_le hle
        refine ⟨o, ?_, ?_, ?_⟩
        · show (insertLvl a (sortByLvl (b :: t'))).head? = some o
          rw [hrest]
          simp [insertLvl, hle]
        · intro x hx
          rcases List.mem_cons.mp hx with rfl | hx'
          · exact Nat.le_of_lt hlt
          · exact ho2 x hx'
        · rw [List.find?_cons_of_neg _ (by simp [hle])]
          exact ho3

/-- Claim C4: for every character with a non-empty occurrence list, both
static resolvers (the in-place `sort` of `kbmap_qmk_helper.main` and the
`sorted` of `keymap_programming_keys.main`, both keyed on the level)
choose an occurrence of minimum level, and among equal levels the first
one in discovery order (`find?` returns the first minimum). -/
theorem c4_min_level (keymap : List (Nat × List String)) (c : String)
    (h1 : Kbmap.build_positions keymap c ≠ [])
    (h2 : ProgKeys.find_char_positions keymap c ≠ []) :
    (∃ o, Kbmap.resolve_occ keymap c = some o ∧
        (∀ x ∈ Kbmap.build_positions keymap c, o.lvl ≤ x.lvl) ∧
        (Kbmap.build_positions keymap c).find?
          (fun x => decide (x.lvl ≤ o.lvl)) = some o) ∧
    (∃ o, (sortByLvl (ProgKeys.find_char_positions keymap c)).head? = some o ∧
        (∀ x ∈ ProgKeys.find_char_positions keymap c, o.lvl ≤ x.lvl) ∧
        (ProgKeys.find_char_positions keymap c).find?
          (fun x => decide (x.lvl ≤ o.lvl)) = some o) :=
  ⟨sortByLvl_head_spec _ h1, sortByLvl_head_spec _ h2⟩

/-- Claim C4, witnessed on a keymap where character `a` occurs at
levels 0 and 2: the level-0 occurrence is chosen. -/
theorem c4_min_level_witness :
    ((∃ o, Kbmap.resolve_occ
          [(38, ["a", "A", "NoSymbol", "NoSymbol"]),
           (50, ["x", "y", "a", "NoSymbol"])] "a" = some o ∧
        (∀ x ∈ Kbmap.build_positions
            [(38, ["a", "A", "NoSymbol", "NoSymbol"]),
             (50, ["x", "y", "a", "NoSymbol"])] "a", o.lvl ≤ x.lvl) ∧
        (Kbmap.build_positions
            [(38, ["a", "A", "NoSymbol", "NoSymbol"]),
             (50, ["x", "y", "a", "NoSymbol"])] "a").find?
          (fun x => decide (x.lvl ≤ o.lvl)) = some o) ∧
     (∃ o, (sortByLvl (ProgKeys.find_char_positions
            [(38, ["a", "A", "NoSymbol", "NoSymbol"]),
             (50, ["x", "y", "a", "NoSymbol"])] "a")).head? = some o ∧
        (∀ x ∈ ProgKeys.find_char_positions
            [(38, ["a", "A", "NoSymbol", "NoSymbol"]),
             (50, ["x", "y", "a", "NoSymbol"])] "a", o.lvl ≤ x.lvl) ∧
        (ProgKeys.find_char_positions
            [(38, ["a", "A", "NoSymbol", "NoSymbol"]),
             (50, ["x", "y", "a", "NoSymbol"])] "a").find?
          (fun x => decide (x.lvl ≤ o.lvl)) = some o)) ∧
    Kbmap.resolve_occ
      [(38, ["a", "A", "NoSymbol", "NoSymbol"]),
       (50, ["x", "y", "a", "NoSymbol"])] "a" =
      some ⟨38, 0, "a", ["a", "A", "NoSymbol", "NoSymbol"]⟩ :=
  ⟨c4_min_level _ "a" (by decide) (by decide), by decide⟩

/-- Claim C5: for a resolved occurrence with base hypothesis `X`, the
final keycode expression of `qmk_combo_for` is exactly `X` at level 0,
`S(X)` at level 1, `RALT(X)` at level 2 and `S(RALT(X))` at level 3,
and no other composition shape is ever produced. -/
theorem c5_level_wrapping (e : Occ) :
    ((e.lvl = 0 → (Kbmap.qmk_combo_for e).2.2 = Kbmap.qmk_base_of e) ∧
     (e.lvl = 1 →
       (Kbmap.qmk_combo_for e).2.2 = "S(" ++ Kbmap.qmk_base_of e ++ ")") ∧
     (e.lvl = 2 →
       (Kbmap.qmk_combo_for e).2.2 = "RALT(" ++ Kbmap.qmk_base_of e ++ ")") ∧
     (e.lvl = 3 →
       (Kbmap.qmk_combo_for e).2.2 = "S(RALT(" ++ Kbmap.qmk_base_of e ++ "))")) ∧
    (Kbmap.qmk_combo_for e).2.2 ∈
      [Kbmap.qmk_base_of e, "S(" ++ Kbmap.qmk_base_of e ++ ")",
       "RALT(" ++ Kbmap.qmk_base_of e ++ ")",
       "S(RALT(" ++ Kbmap.qmk_base_of e ++ "))"] := by
  constructor
  · refine ⟨?_, ?_, ?_, ?_⟩ <;> intro h <;> simp [Kbmap.qmk_combo_for, h]
  · by_cases h0 : e.lvl = 0
    · simp [Kbmap.qmk_combo_for, h0]
    by_cases h1 : e.lvl = 1
    · simp [Kbmap.qmk_combo_for, h1]
    by_cases h2 : e.lvl = 2
    · simp [Kbmap.qmk_combo_for, h2]
    · simp [Kbmap.qmk_combo_for, h0, h1, h2]

/-- Claim C5, witnessed at a level-3 occurrence of the `a` key row:
the suggestion is `S(RALT(KC_A))`. -/
theorem c5_level_wrapping_witness :
    (Kbmap.qmk_combo_for ⟨38, 3, "ae", ["a", "A", "NoSymbol", "NoSymbol"]⟩).2.2 =
      "S(RALT(KC_A))" := by
  have h := (c5_level_wrapping
    ⟨38, 3, "ae", ["a", "A", "NoSymbol", "NoSymbol"]⟩).1.2.2.2 rfl
  rw [h]
  decide

theorem extract_marker_roundtrip (b : String) :
    Kbmap.extract_marker_sym ("<KC_BASE_DESCONOCIDA:keysym=" ++ b ++ ">") = b := by
  unfold Kbmap.extract_marker_sym
  rw [String.data_append, String.data_append, List.append_assoc]
  simp only [String.length]
  rw [List.drop_left]
  show String.mk (b.data ++ ['>']).dropLast = b
  rw [List.dropLast_concat]

/-- Claim C3 counterexample: for the live suggestion function, a symbol
for which every fallback stage fails (here `€`) yields the fixed marker
`<KC_BASE_DESCONOCIDA>`, which does not contain the symbol, so the
symbol cannot be extracted back out. -/
theorem c3_live_marker_generic :
    Inspector.qmk_from_char_and_mods (some "€") false false =
      "<KC_BASE_DESCONOCIDA>" ∧
    ¬ List.IsInfix "€".data "<KC_BASE_DESCONOCIDA>".data := by
  decide

/-- Claim C3 as amended: when every stage of the base-keycode fallback
fails, the *static* resolver returns the marker
`<KC_BASE_DESCONOCIDA:keysym=...>` carrying the offending symbol, and
the symbol round-trips back out of the marker; the *live* suggestion
function instead returns a result not depending on the symbol at all
(the same expression as for an absent character, built from the fixed
generic marker). -/
theorem c3_unknown_marker :
    (∀ e : Occ,
      ¬((Kbmap.base_keysym_of e).length = 1 ∧
          pyIsAlphaStr (Kbmap.base_keysym_of e)) →
      ¬((Kbmap.base_keysym_of e).length = 1 ∧
          pyIsDigitStr (Kbmap.base_keysym_of e)) →
      List.lookup (Kbmap.base_keysym_of e) Kbmap.BASE_KEYSYM_TO_QMK = none →
      ¬((Kbmap.prefer_key_label e.row).length = 1 ∧
          pyIsAlphaStr (Kbmap.prefer_key_label e.row)) →
      ¬((Kbmap.prefer_key_label e.row).length = 1 ∧
          pyIsDigitStr (Kbmap.prefer_key_label e.row)) →
      Kbmap.qmk_base_of e =
        "<KC_BASE_DESCONOCIDA:keysym=" ++ Kbmap.base_keysym_of e ++ ">" ∧
      Kbmap.extract_marker_sym (Kbmap.qmk_base_of e) = Kbmap.base_keysym_of e) ∧
    (∀ (c : String) (shift ralt : Bool),
      Inspector.resolve_kc (some c) = none →
      Inspector.qmk_from_char_and_mods (some c) shift ralt =
        Inspector.qmk_from_char_and_mods none shift ralt) := by
  constructor
  · intro e h1 h2 h3 h4 h5
    have hq : Kbmap.qmk_base_of e =
        "<KC_BASE_DESCONOCIDA:keysym=" ++ Kbmap.base_keysym_of e ++ ">" := by
      simp [Kbmap.qmk_base_of, h1, h2, h3, h4, h5]
    exact ⟨hq, by rw [hq, extract_marker_roundtrip]⟩
  · intro c shift ralt h
    simp only [Inspector.qmk_from_char_and_mods, h,
      show Inspector.resolve_kc none = none from rfl]

/-- Claim C3, witnessed: the static resolver on a key whose only symbol
is the unknown keysym `euro` produces the annotated marker and the
symbol round-trips; the live suggestion for the unknown character `§`
with AltGr held equals the suggestion for no character at all. -/
theorem c3_unknown_marker_witness :
    (Kbmap.qmk_base_of ⟨10, 0, "euro", ["euro", "NoSymbol", "NoSymbol", "NoSymbol"]⟩ =
        "<KC_BASE_DESCONOCIDA:keysym=euro>" ∧
     Kbmap.extract_marker_sym
       (Kbmap.qmk_base_of ⟨10, 0, "euro", ["euro", "NoSymbol", "NoSymbol", "NoSymbol"]⟩) =
        "euro") ∧
    Inspector.qmk_from_char_and_mods (some "§") false true =
      Inspector.qmk_from_char_and_mods none false true := by
  constructor
  · have h := c3_unknown_marker.1
      ⟨10, 0, "euro", ["euro", "NoSymbol", "NoSymbol", "NoSymbol"]⟩
      (by decide) (by decide) (by decide) (by decide) (by decide)
    exact ⟨by rw [h.1]; decide, by rw [h.2]; decide⟩
  · exact c3_unknown_marker.2 "§" false true (by decide)

/-- Claim C8: pressing a key that is not one of the recognised modifier
keys leaves every rolling modifier flag of the backend unchanged, for
backend A (Tk keysyms) and backend B (evdev scancode names, any key
state). -/
theorem c8_nonmodifier_frame :
    (∀ (m : Inspector.TkMods) (ks ch : String),
      ks ∉ Inspector.tkModNames →
      (Inspector.on_keypress_tk m ks ch).1 = m) ∧
    (∀ (m : Inspector.EvMods) (sc : Nat) (kn : String)
      (st : Inspector.EvKeyState),
      kn ∉ Inspector.evModNames →
      (Inspector.evdev_step m sc kn st).1 = m) := by
  constructor
  · intro m ks ch h
    simp only [Inspector.tkModNames, List.mem_cons, List.not_mem_nil,
      or_false, not_or] at h
    obtain ⟨n1, n2, n3, n4, n5, n6, n7, n8, n9, n10, n11, n12⟩ := h
    simp [Inspector.on_keypress_tk, n1, n2, n3, n4, n5, n6, n7, n8, n9,
      n10, n11, n12]
  · intro m sc kn st h
    simp only [Inspector.evModNames, List.mem_cons, List.not_mem_nil,
      or_false, not_or] at h
    obtain ⟨n1, n2, n3, n4, n5, n6, n7, n8⟩ := h
    simp [Inspector.evdev_step, n1, n2, n3, n4, n5, n6, n7, n8]

/-- Claim C8, witnessed: a press of the letter key `a` in backend A and
a key-down of `KEY_SPACE` in backend B leave the initial flag states
unchanged. -/
theorem c8_nonmodifier_frame_witness :
    (Inspector.on_keypress_tk Inspector.tkMods0 "a" "a").1 =
      Inspector.tkMods0 ∧
    (Inspector.evdev_step Inspector.evMods0 57 "KEY_SPACE"
      Inspector.EvKeyState.down).1 = Inspector.evMods0 :=
  ⟨c8_nonmodifier_frame.1 _ "a" "a" (by decide),
   c8_nonmodifier_frame.2 _ 57 "KEY_SPACE" _ (by decide)⟩

/-- Claim C7: after backend A receives a press of any of the three
secondary-modifier aliases (`Alt_R`, `ISO_Level3_Shift`, `Mode_switch`)
from the initial state and then a press of a non-modifier letter key
whose character resolves to base keycode `kc`, the emitted event has the
AltGr flag set and its suggestion is the base keycode wrapped in
`RALT(...)`. -/
theorem c7_altgr_alias (al ks ch kc : String)
    (hal : al = "Alt_R" ∨ al = "ISO_Level3_Shift" ∨ al = "Mode_switch")
    (hks : ks ∉ Inspector.tkModNames)
    (hch : ch ≠ "")
    (hkc : List.lookup ch Inspector.BASE_KEYSYM_TO_QMK = some kc) :
    (Inspector.on_keypress_tk
        (Inspector.on_keypress_tk Inspector.tkMods0 al "").1 ks ch).2.alt_r =
      true ∧
    (Inspector.on_keypress_tk
        (Inspector.on_keypress_tk Inspector.tkMods0 al "").1 ks
        ch).2.qmk_suggestion = "RALT(" ++ kc ++ ")" := by
  have hm1 : (Inspector.on_keypress_tk Inspector.tkMods0 al "").1 =
      ⟨false, false, false, true, false, false⟩ := by
    rcases hal with rfl | rfl | rfl <;> decide
  rw [hm1]
  simp only [Inspector.tkModNames, List.mem_cons, List.not_mem_nil,
    or_false, not_or] at hks
  obtain ⟨n1, n2, n3, n4, n5, n6, n7, n8, n9, n10, n11, n12⟩ := hks
  constructor
  · simp [Inspector.on_keypress_tk, n1, n2, n3, n4, n5, n6, n7, n8, n9,
      n10, n11, n12]
  · simp [Inspector.on_keypress_tk, Inspector.KeyEventInfo.qmk_suggestion,
      Inspector.KeyEventInfo.altgr, Inspector.qmk_from_char_and_mods,
      Inspector.resolve_kc, hch, hkc, n1, n2, n3, n4, n5, n6, n7, n8, n9,
      n10, n11, n12]

/-- Claim C7, witnessed: `ISO_Level3_Shift` then the letter key `a`
yields an event with AltGr set and suggestion `RALT(KC_A)`. -/
theorem c7_altgr_alias_witness :
    (Inspector.on_keypress_tk
        (Inspector.on_keypress_tk Inspector.tkMods0 "ISO_Level3_Shift" "").1
        "a" "a").2.alt_r = true ∧
    (Inspector.on_keypress_tk
        (Inspector.on_keypress_tk Inspector.tkMods0 "ISO_Level3_Shift" "").1
        "a" "a").2.qmk_suggestion = "RALT(KC_A)" :=
  c7_altgr_alias "ISO_Level3_Shift" "a" "a" "KC_A" (by decide) (by decide)
    (by decide) (by decide)

/-- Claim C9: a requested character with no occurrence anywhere in the
index yields exactly the explicit placeholder row when `--all`
(show-missing) is set and no row at all otherwise; in neither case is
anything merged into a found row. -/
theorem c9_missing_row (keymap : List (Nat × List String)) (w : String)
    (h : ProgKeys.find_char_positions keymap w = []) :
    ProgKeys.row_for_want keymap true w =
      [[w, "—", "—", "—", "No hallado en este layout"]] ∧
    ProgKeys.row_for_want keymap false w = [] := by
  constructor <;> simp [ProgKeys.row_for_want, h]

/-- Claim C9, witnessed: `€` is absent from a keymap holding only the
`a` key row. -/
theorem c9_missing_row_witness :
    ProgKeys.row_for_want [(38, ["a", "A", "NoSymbol", "NoSymbol"])] true "€" =
      [["€", "—", "—", "—", "No hallado en este layout"]] ∧
    ProgKeys.row_for_want [(38, ["a", "A", "NoSymbol", "NoSymbol"])] false "€" =
      [] :=
  c9_missing_row _ "€" (by decide)
